import Mathlib

/-!
Verification of the quill-init boot orchestrator core against its
natural-language specification.

This file gives a shallow embedding of the Rust sources:
the boot-configuration store (`libqinit/src/boot_config.rs`), the signature
verifier (`libqinit/src/signing.rs`), the readiness tracker
(`libqinit/src/systemd.rs`), the in-chroot command channel
(`libqinit/src/rootfs_socket.rs`), the shutdown coordinator
(`libqinit/src/system.rs`) and the two-stage handoff (`qinit/src/main.rs`).
File-system contents, kernel-log streams and the shared atomic flags are
modelled explicitly; `f32` progress arithmetic is modelled as exact rationals;
RON serialization is modelled as a lossless constructor on file contents.
The `debug`-feature-only fields are omitted (non-debug build).
-/

namespace QuillInit

/-- Screen rotation enum from `libqinit/src/eink.rs`; `Cw270` carries the
Rust `default` mark. -/
inductive ScreenRotation
  | Cw0
  | Cw90
  | Cw180
  | Cw270
deriving DecidableEq, Repr

/-- Rust `Default` for `ScreenRotation` (the `default` variant is `Cw270`). -/
def ScreenRotation.default : ScreenRotation := ScreenRotation.Cw270

/-- `BootFlags` from `libqinit/src/boot_config.rs`. -/
structure BootFlags where
  first_boot_done : Bool
deriving DecidableEq, Repr

/-- `RootFS` section of the boot configuration. `i32`/`i64` fields are
modelled as `Int`. -/
structure RootFS where
  systemd_targets_total : Option Int
  timestamp : Int
  persistent_storage : Bool
deriving DecidableEq, Repr

/-- `System` section of the boot configuration. -/
structure SystemSection where
  default_user : Option String
  timezone : String
  recovery_features : Bool
  initial_screen_rotation : ScreenRotation
  splash_wallpaper : String
deriving DecidableEq, Repr

/-- `BootConfig` from `libqinit/src/boot_config.rs` (debug block omitted:
non-debug build). -/
structure BootConfig where
  flags : BootFlags
  rootfs : RootFS
  system : SystemSection
deriving DecidableEq, Repr

/-- Rust `BootConfig::default()` (derived `Default`: all-zero values). -/
def BootConfig.rustDefault : BootConfig :=
  { flags := { first_boot_done := false }
    rootfs := { systemd_targets_total := none, timestamp := 0, persistent_storage := false }
    system := { default_user := none, timezone := "", recovery_features := false,
                initial_screen_rotation := ScreenRotation.default, splash_wallpaper := "" } }

/-- `BootConfig::default_boot_config()`: starts from the derived default and
sets `first_boot_done := false`, `persistent_storage := true`,
`timezone := "UTC"`, `recovery_features := true`, `splash_wallpaper := "flow"`. -/
def BootConfig.default_boot_config : BootConfig :=
  { BootConfig.rustDefault with
    flags := { BootConfig.rustDefault.flags with first_boot_done := false }
    rootfs := { BootConfig.rustDefault.rootfs with persistent_storage := true }
    system := { BootConfig.rustDefault.system with
                timezone := "UTC", recovery_features := true, splash_wallpaper := "flow" } }

/-- Content of the boot-configuration file: either a RON document that parses
back to a `BootConfig` (serialization modelled lossless), or bytes that fail
to parse. -/
inductive FileContent
  | good (c : BootConfig)
  | corrupt
deriving DecidableEq, Repr

/-- The three file slots touched by `BootConfig::read`/`write`:
the committed file `boot_config.ron`, the pending default
`boot_config.ron.new` (suffix `.new`, written when `slated_for_restoration`
holds) and the backup `boot_config.ron.bak`.  `none` means the file does not
exist. -/
structure BootFS where
  committed : Option FileContent
  pending : Option FileContent
  backup : Option FileContent
deriving DecidableEq, Repr

/-- `BootConfig::write(boot_config, slated_for_restoration)`: a non-pending
write first removes any stale pending file, then writes the committed path;
a pending write only writes the `.new` path. -/
def BootConfig.write (boot_config : BootConfig) (slated_for_restoration : Bool)
    (fs : BootFS) : BootFS :=
  if slated_for_restoration then
    { fs with pending := some (FileContent.good boot_config) }
  else
    { fs with pending := none, committed := some (FileContent.good boot_config) }

/-- `BootConfig::read()`: parse the committed file; on parse success return it
with `valid := true`; on parse failure copy the corrupt file to the backup
path, take the defaults with `first_boot_done := true`, write them as pending
(the source calls `write(.., true)`) and return them with `valid := false`;
when the file cannot be read at all, write the plain defaults committed and
return them with `valid := true`.  Returns (file system, config, valid). -/
def BootConfig.read (fs : BootFS) : BootFS × BootConfig × Bool :=
  match fs.committed with
  | some (FileContent.good c) => (fs, c, true)
  | some FileContent.corrupt =>
      let recovered :=
        { BootConfig.default_boot_config with
          flags := { BootConfig.default_boot_config.flags with first_boot_done := true } }
      let fs1 : BootFS := { fs with backup := some FileContent.corrupt }
      (BootConfig.write recovered true fs1, recovered, false)
  | none =>
      (BootConfig.write BootConfig.default_boot_config false fs,
        BootConfig.default_boot_config, true)

/-- The default configuration with `first_boot_done` forced, as produced by
the corruption-recovery branch of `BootConfig::read`. -/
def BootConfig.recoveredDefault : BootConfig :=
  { BootConfig.default_boot_config with
    flags := { BootConfig.default_boot_config.flags with first_boot_done := true } }

/-- A file system whose committed boot configuration is corrupt. -/
def corruptBootFS : BootFS :=
  { committed := some FileContent.corrupt, pending := none, backup := none }

/-- Environment of one `check_signature(pubkey, file)` call
(`libqinit/src/signing.rs`, verifying build, no `free_roam`):
the bytes `fs::read` yields for the artifact and for its detached
`.dgst` sibling (`none` when the read fails, e.g. the file is absent), and
the outcome of the OpenSSL SHA-256 verifier on given data and signature
bytes under the fixed public key. -/
structure SigEnv where
  fileData : Option (List Nat)
  sigData : Option (List Nat)
  verifies : List Nat → List Nat → Bool

/-- `check_signature`: read the artifact, then the detached signature file —
each failed read aborts with an error (the Rust source propagates the
`fs::read` error) — and otherwise return the verifier's boolean verdict. -/
def check_signature (env : SigEnv) : Except String Bool :=
  match env.fileData with
  | none => Except.error "Could not read file for signature verification"
  | some data =>
    match env.sigData with
    | none => Except.error "Could not read digest file for signature verification"
    | some signature => Except.ok (env.verifies data signature)

/-- Concrete environment: the artifact reads fine, the detached signature
file is absent. -/
def missingSigEnv : SigEnv :=
  { fileData := some [0], sigData := none, verifies := fun _ _ => true }

/-- `ROOTFS_MOUNTED_PROGRESS_VALUE` (`libqinit/src/rootfs.rs`): the `f32`
baseline 0.1, modelled as an exact rational. -/
def ROOTFS_MOUNTED_PROGRESS_VALUE : ℚ := 1 / 10

/-- `READY_PROGRESS_VALUE` (`libqinit/src/lib.rs`): the final progress 1.0. -/
def READY_PROGRESS_VALUE : ℚ := 1

/-- The progress expression from the `wait_for_targets` loop
(`libqinit/src/systemd.rs`):
`ROOTFS_MOUNTED_PROGRESS_VALUE + count / total * (1 - ROOTFS_MOUNTED_PROGRESS_VALUE)`. -/
def progress_value (targets_count : Nat) (targets_total : Int) : ℚ :=
  ROOTFS_MOUNTED_PROGRESS_VALUE +
    (targets_count : ℚ) / (targets_total : ℚ) * (1 - ROOTFS_MOUNTED_PROGRESS_VALUE)

/-- One kernel-log entry as classified by the `wait_for_targets` loop:
either it contains the `Reached target` marker, or it does not. -/
inductive LogEntry
  | reached
  | other
deriving DecidableEq, Repr

/-- The streaming loop of `wait_for_targets`: each iteration reads one log
entry paired with the value the `boot_finished` atomic holds at the end of
that iteration; a `reached` entry bumps the counter and sends one progress
report; the loop breaks once `boot_finished` reads true. -/
def wait_reports : List (LogEntry × Bool) → Nat → Int → List ℚ
  | [], _, _ => []
  | (e, flag) :: rest, count, total =>
    match e with
    | LogEntry.reached =>
        progress_value (count + 1) total ::
          (if flag then [] else wait_reports rest (count + 1) total)
    | LogEntry.other => if flag then [] else wait_reports rest count total

/-- Number of `reached` entries the `wait_for_targets` loop processes before
the `boot_finished` break. -/
def seenTargets : List (LogEntry × Bool) → Nat
  | [] => 0
  | (e, flag) :: rest =>
    (match e with | LogEntry.reached => 1 | LogEntry.other => 0) +
      (if flag then 0 else seenTargets rest)

/-- `wait_for_targets(boot_config, targets_total, progress_sender)`:
streams the loop's reports, then reconciles the stored total with the
background recount's result `fresh_targets_count`, and always sends the
final `READY_PROGRESS_VALUE`.  Returns (updated config, list of reports). -/
def wait_for_targets (boot_config : BootConfig) (entries : List (LogEntry × Bool))
    (targets_total : Int) (fresh_targets_count : Int) : BootConfig × List ℚ :=
  let reports := wait_reports entries 0 targets_total
  let bc :=
    match boot_config.rootfs.systemd_targets_total with
    | some old =>
        if fresh_targets_count ≠ old then
          { boot_config with
            rootfs := { boot_config.rootfs with
                        systemd_targets_total := some fresh_targets_count } }
        else boot_config
    | none => boot_config
  (bc, reports ++ [READY_PROGRESS_VALUE])

/-- Environment of one `get_targets_total` call: whether the rootfs SquashFS
archive exists and, when it does, its modification time. -/
structure RootfsImageEnv where
  rootfs_exists : Bool
  rootfs_mtime : Int
deriving DecidableEq, Repr

/-- `get_targets_total(boot_config)` (`libqinit/src/systemd.rs`): when the
image exists and its mtime equals the stored fingerprint, return the stored
total (or `none` when none is stored); on a mismatch, refresh the stored
fingerprint and return `none`; when the image is missing, return `none`.
Returns (updated config, optional total). -/
def get_targets_total (env : RootfsImageEnv) (boot_config : BootConfig) :
    BootConfig × Option Int :=
  if env.rootfs_exists then
    if env.rootfs_mtime = boot_config.rootfs.timestamp then
      match boot_config.rootfs.systemd_targets_total with
      | some t => (boot_config, some t)
      | none => (boot_config, none)
    else
      ({ boot_config with
         rootfs := { boot_config.rootfs with timestamp := env.rootfs_mtime } }, none)
  else (boot_config, none)

/-- `PrimitiveShutDownType` from the `libquillcom` socket crate (the crate is
outside this tree; variants as used by `system.rs` and `gui.rs`).
Modelled from the spec: the shutdown kinds carried by `TriggerSplash` and the
power primitives. -/
inductive PrimitiveShutDownType
  | PowerOff
  | Reboot
  | Sleep
deriving DecidableEq, Repr

/-- `PowerDownMode` (`libqinit/src/system.rs`): direct (`Normal`) or
delegated into the chroot (`RootFS`). -/
inductive PowerDownMode
  | Normal
  | RootFS
deriving DecidableEq, Repr

/-- Observable events of the shutdown coordinator. -/
inductive PowerEvent
  | observeFlag (b : Bool)
  | clearFlag
  | syncDisks
  | unmountMain
  | unmountBoot
  | powerPrimitive (t : PrimitiveShutDownType)
  | chrootPrimitive (t : PrimitiveShutDownType)
deriving DecidableEq, Repr

/-- Events that mutate or destroy system state (unmounts and the power
primitives); flag reads, the flag clear and disk syncs are non-destructive. -/
def isDestructive : PowerEvent → Bool
  | PowerEvent.unmountMain => true
  | PowerEvent.unmountBoot => true
  | PowerEvent.powerPrimitive _ => true
  | PowerEvent.chrootPrimitive _ => true
  | _ => false

/-- `bulletproof_unmount(path)`: sync the disks, then force/lazy unmount. -/
def bulletproof_unmount_trace (target : PowerEvent) : List PowerEvent :=
  [PowerEvent.syncDisks, target]

/-- `unmount_base_partitions()`: sync, then bulletproof-unmount the main and
boot partitions. -/
def unmount_base_partitions_trace : List PowerEvent :=
  PowerEvent.syncDisks ::
    (bulletproof_unmount_trace PowerEvent.unmountMain ++
      bulletproof_unmount_trace PowerEvent.unmountBoot)

/-- `real_shut_down(shut_down_type, mode)` (non-`gui_only` build): in
`Normal` mode unmount the base partitions then run the matching power
primitive (`PowerOff`/`Reboot`; other kinds fall through); in `RootFS` mode
run the primitive inside the chroot. -/
def real_shut_down_trace (t : PrimitiveShutDownType) (mode : PowerDownMode) :
    List PowerEvent :=
  match mode with
  | PowerDownMode.Normal =>
      unmount_base_partitions_trace ++
        (match t with
         | PrimitiveShutDownType.PowerOff => [PowerEvent.powerPrimitive t]
         | PrimitiveShutDownType.Reboot => [PowerEvent.powerPrimitive t]
         | PrimitiveShutDownType.Sleep => [])
  | PowerDownMode.RootFS =>
      match t with
      | PrimitiveShutDownType.PowerOff => [PowerEvent.chrootPrimitive t]
      | PrimitiveShutDownType.Reboot => [PowerEvent.chrootPrimitive t]
      | PrimitiveShutDownType.Sleep => []

/-- The polling loop at the head of `shut_down`: `observations` lists the
successive values the `can_shut_down` atomic yields; on the first `true` the
loop stores `false` into the flag and breaks.  `none` models the loop never
seeing `true` (it blocks forever). -/
def shut_down_loop : List Bool → Option (List PowerEvent)
  | [] => none
  | b :: rest =>
    if b then some [PowerEvent.observeFlag true, PowerEvent.clearFlag]
    else (shut_down_loop rest).map (fun evs => PowerEvent.observeFlag false :: evs)

/-- `shut_down(shut_down_type, mode, can_shut_down)`: poll the gate, consume
it, then run `real_shut_down` (spawned; modelled as running to completion
after the loop).  Returns the event trace together with the flag value after
the call, or `none` when the gate is never raised. -/
def shut_down (t : PrimitiveShutDownType) (mode : PowerDownMode)
    (observations : List Bool) : Option (List PowerEvent × Bool) :=
  (shut_down_loop observations).map
    (fun evs => (evs ++ real_shut_down_trace t mode, false))

/-- Events of the first-stage (`init_wrapper`) branch of `init`
(`qinit/src/main.rs`) after spawning the second stage. -/
inductive Stage1Event
  | recvStatus (ready : Bool)
  | removeSocket
  | chroot
  | execInit
deriving DecidableEq, Repr

/-- Stage 1 after spawning stage 2: block on the handoff socket for one
`OverlayStatus` message; only when it carries `ready = true`, delete the
socket file, chroot into the overlay and exec the real init. -/
def stage1_trace (status_ready : Bool) : List Stage1Event :=
  Stage1Event.recvStatus status_ready ::
    (if status_ready then
      [Stage1Event.removeSocket, Stage1Event.chroot, Stage1Event.execInit]
     else [])

/-- Events of the second-stage branch of `init` around the handoff. -/
inductive Stage2Event
  | rootfsSetup (ok : Bool)
  | sendReady
  | abortBoot
deriving DecidableEq, Repr

/-- Stage 2 around the handoff: `rootfs::setup(..)?` either succeeds, after
which `OverlayStatus with ready = true` is written to the handoff socket, or
fails, which aborts `init` before any send. -/
def stage2_trace (setup_ok : Bool) : List Stage2Event :=
  if setup_ok then [Stage2Event.rootfsSetup true, Stage2Event.sendReady]
  else [Stage2Event.rootfsSetup false, Stage2Event.abortBoot]

/-- `LoginForm` from the `libquillcom` socket crate (outside this tree).
Modelled from the spec: a username/password pair. -/
structure LoginForm where
  username : String
  password : String
deriving DecidableEq, Repr

/-- `AnswerFromQinit` replies of the in-chroot service socket (outside this
tree).  Modelled from the spec: `LoginAnswer(optional credentials)` and
`SplashReadyAck`. -/
inductive AnswerFromQinit
  | Login (form : Option LoginForm)
  | SplashReady
deriving DecidableEq, Repr

/-- One step of `listen_for_login_credentials`
(`libqinit/src/rootfs_socket.rs`): a submitted form with an empty username or
an empty password clears the cache; any other form replaces it. -/
def submit_login_form (_cache : Option LoginForm) (f : LoginForm) : Option LoginForm :=
  if f.username.isEmpty || f.password.isEmpty then none
  else some { username := f.username, password := f.password }

/-- Cache contents after a sequence of submissions, starting from the empty
cache the mutex is initialized with. -/
def cache_after_submissions (subs : List LoginForm) : Option LoginForm :=
  subs.foldl submit_login_form none

/-- The `GetLoginCredentials` branch of `listen_for_commands`: reply with the
currently cached value wrapped in `AnswerFromQinit.Login`. -/
def get_login_credentials_reply (cache : Option LoginForm) : AnswerFromQinit :=
  AnswerFromQinit.Login cache

/-- Wellformedness of the cached login form: absent, or both fields
non-empty. -/
def cache_ok : Option LoginForm → Bool
  | none => true
  | some f => !f.username.isEmpty && !f.password.isEmpty

/-- Observable events of the `TriggerSplash` branch of
`listen_for_commands`. -/
inductive SplashEvent
  | sendSplash (t : PrimitiveShutDownType)
  | recvSplashReadyFromGui
  | observeGate (b : Bool)
  | sendSplashReadyReply
deriving DecidableEq, Repr

/-- The gate-polling loop of the `TriggerSplash` branch: each iteration loads
`can_shut_down`; on `true` it breaks and the `SplashReady` reply is written.
An exhausted observation list models the loop still spinning (no reply). -/
def splash_gate_poll : List Bool → List SplashEvent
  | [] => []
  | b :: rest =>
    SplashEvent.observeGate b ::
      (if b then [SplashEvent.sendSplashReadyReply] else splash_gate_poll rest)

/-- The `TriggerSplash(shut_down_type)` branch: forward the splash kind to
the GUI, block on the splash-ready acknowledgement, poll the gate, then
reply. -/
def trigger_splash_trace (t : PrimitiveShutDownType) (observations : List Bool) :
    List SplashEvent :=
  SplashEvent.sendSplash t :: SplashEvent.recvSplashReadyFromGui ::
    splash_gate_poll observations

/-- C1 counterexample: with a corrupt committed file, `read()` leaves the
committed path untouched (still the corrupt bytes) and writes the fresh
defaults to the pending `.new` path instead of the primary path, refuting
the claim that a fresh default is written to the committed path. -/
theorem read_corrupt_writes_pending_cex :
    (BootConfig.read corruptBootFS).1.committed = some FileContent.corrupt ∧
    (BootConfig.read corruptBootFS).1.pending =
      some (FileContent.good BootConfig.recoveredDefault) ∧
    (BootConfig.read corruptBootFS).2 = (BootConfig.recoveredDefault, false) :=
  ⟨rfl, rfl, rfl⟩

/-- C1 (amended): for every file system whose committed configuration fails
to parse, `read()` copies the corrupt content to the backup path, returns the
defaults with `first_boot_done = true` together with `valid = false`, and
immediately writes those defaults to the pending (`.new`) path — the
committed file keeps the corrupt original. -/
theorem read_corrupt_recovery (fs : BootFS)
    (h : fs.committed = some FileContent.corrupt) :
    BootConfig.read fs =
      ({ fs with backup := some FileContent.corrupt,
                 pending := some (FileContent.good BootConfig.recoveredDefault) },
        BootConfig.recoveredDefault, false) := by
  unfold BootConfig.read
  rw [h]
  rfl

theorem read_corrupt_recovery_witness :
    BootConfig.read corruptBootFS =
      ({ corruptBootFS with
         backup := some FileContent.corrupt,
         pending := some (FileContent.good BootConfig.recoveredDefault) },
        BootConfig.recoveredDefault, false) :=
  read_corrupt_recovery corruptBootFS rfl

/-- C5: for every configuration `c` and every prior file-system state,
`write(c, pending := false)` followed by `read()` returns exactly `c` in
every field, with `valid = true` (serialization modelled lossless). -/
theorem boot_config_round_trip (c : BootConfig) (fs : BootFS) :
    BootConfig.read (BootConfig.write c false fs) =
      (BootConfig.write c false fs, c, true) := rfl

/-- C2 counterexample: an artifact that reads fine whose detached signature
file is absent makes `check_signature` return an `Err` (the propagated
`fs::read` failure), not `Ok(false)` as the claim states. -/
theorem check_signature_missing_sig_cex :
    check_signature missingSigEnv =
      Except.error "Could not read digest file for signature verification" ∧
    check_signature missingSigEnv ≠ Except.ok false := by
  refine ⟨rfl, ?_⟩
  simp [check_signature, missingSigEnv]

/-- C2 (amended): when both the artifact and its detached signature file are
readable, `check_signature` returns `Ok` of the verifier's verdict — so
`Ok(false)` exactly on signature mismatch — while an unreadable artifact or
an unreadable/absent signature file yields an `Err`. -/
theorem check_signature_error_spec (env : SigEnv) :
    (∀ d s, env.fileData = some d → env.sigData = some s →
      check_signature env = Except.ok (env.verifies d s)) ∧
    ((env.fileData = none ∨ env.sigData = none) →
      ∃ msg, check_signature env = Except.error msg) := by
  constructor
  · intro d s hd hs
    simp [check_signature, hd, hs]
  · intro h
    rcases h with h | h
    · exact ⟨"Could not read file for signature verification",
        by simp [check_signature, h]⟩
    · cases hf : env.fileData with
      | none =>
          exact ⟨"Could not read file for signature verification",
            by simp [check_signature, hf]⟩
      | some d =>
          exact ⟨"Could not read digest file for signature verification",
            by simp [check_signature, hf, h]⟩

theorem check_signature_error_spec_witness :
    check_signature
        { fileData := some [1], sigData := some [2], verifies := fun _ _ => false } =
      Except.ok false ∧
    ∃ msg, check_signature missingSigEnv = Except.error msg :=
  ⟨(check_signature_error_spec
      { fileData := some [1], sigData := some [2], verifies := fun _ _ => false }).1
      [1] [2] rfl rfl,
   (check_signature_error_spec missingSigEnv).2 (Or.inr rfl)⟩

/-- C6: whenever the rootfs image exists and its modification time differs
from the fingerprint stored in the configuration, `get_targets_total`
returns `none`, whatever total the configuration may hold. -/
theorem get_targets_total_stale_none (env : RootfsImageEnv) (boot_config : BootConfig)
    (hex : env.rootfs_exists = true)
    (hne : env.rootfs_mtime ≠ boot_config.rootfs.timestamp) :
    (get_targets_total env boot_config).2 = none := by
  simp [get_targets_total, hex, hne]

/-- The report stream of the `wait_for_targets` loop is exactly the progress
expression evaluated at the successive counter values. -/
theorem wait_reports_eq_map (entries : List (LogEntry × Bool)) :
    ∀ (count : Nat) (total : Int),
      wait_reports entries count total =
        (List.range' (count + 1) (seenTargets entries)).map
          (fun k => progress_value k total) := by
  induction entries with
  | nil => intro count total; simp [wait_reports, seenTargets]
  | cons p rest ih =>
    intro count total
    obtain ⟨e, flag⟩ := p
    cases e with
    | reached =>
      cases flag with
      | true => simp [wait_reports, seenTargets, List.range'_succ]
      | false =>
        simp [wait_reports, seenTargets, ih,
          Nat.add_comm 1 (seenTargets rest), List.range'_succ]
    | other =>
      cases flag with
      | true => simp [wait_reports, seenTargets]
      | false => simp [wait_reports, seenTargets, ih]

theorem progress_value_le_one (k : Nat) (total : Int) (h1 : 1 ≤ total)
    (hk : (k : Int) ≤ total) : progress_value k total ≤ 1 := by
  have ht : (0:ℚ) < (total:ℚ) := by exact_mod_cast lt_of_lt_of_le one_pos h1
  have hq : (k:ℚ) / (total:ℚ) ≤ 1 := by
    rw [div_le_one ht]; exact_mod_cast hk
  have hm := mul_le_mul_of_nonneg_right hq (show (0:ℚ) ≤ 1 - 1/10 by norm_num)
  simp only [progress_value, ROOTFS_MOUNTED_PROGRESS_VALUE]
  linarith

theorem progress_value_succ_le (k : Nat) (total : Int) (h1 : 1 ≤ total) :
    progress_value k total ≤ progress_value (k + 1) total := by
  have ht : (0:ℚ) < (total:ℚ) := by exact_mod_cast lt_of_lt_of_le one_pos h1
  have hq : (k:ℚ) / (total:ℚ) ≤ ((k:ℚ) + 1) / (total:ℚ) :=
    div_le_div_of_nonneg_right (by linarith) ht.le
  have hm := mul_le_mul_of_nonneg_right hq (show (0:ℚ) ≤ 1 - 1/10 by norm_num)
  simp only [progress_value, ROOTFS_MOUNTED_PROGRESS_VALUE]
  push_cast
  linarith

/-- The mapped progress reports followed by the final 1.0 form a
non-decreasing chain as long as the counter never exceeds the total. -/
theorem chain_progress (total : Int) (h1 : 1 ≤ total) :
    ∀ (n s : Nat), (s : Int) + (n : Int) ≤ total + 1 →
      List.Chain' (· ≤ ·)
        (((List.range' s n).map (fun k => progress_value k total)) ++ [(1:ℚ)]) := by
  intro n
  induction n with
  | zero => intro s _; simp
  | succ m ih =>
    intro s hs
    rw [List.range'_succ]
    simp only [List.map_cons, List.cons_append]
    apply List.chain'_cons'.mpr
    refine ⟨?_, ih (s + 1) (by push_cast at hs ⊢; linarith)⟩
    intro y hy
    cases m with
    | zero =>
      simp at hy
      subst hy
      exact progress_value_le_one s total h1 (by push_cast at hs ⊢; linarith)
    | succ m' =>
      rw [List.range'_succ] at hy
      simp at hy
      subst hy
      exact progress_value_succ_le s total h1

/-- C3 counterexample: with `expectedTotal = 1` and two observed
`Reached target` lines, the second report is 19/10, exceeding 1.0 (the
formula is not clamped), and the mandatory final 1.0 then makes the report
sequence decrease. -/
theorem wait_for_targets_unclamped_cex :
    (wait_for_targets BootConfig.default_boot_config
        [(LogEntry.reached, false), (LogEntry.reached, false)] 1 2).2 =
      [1, 19/10, 1] ∧
    ¬ List.Chain' (· ≤ ·) [(1:ℚ), 19/10, 1] ∧
    (1:ℚ) < 19/10 := by
  refine ⟨?_, by norm_num, by norm_num⟩
  norm_num [wait_for_targets, wait_reports, progress_value,
    ROOTFS_MOUNTED_PROGRESS_VALUE, READY_PROGRESS_VALUE,
    BootConfig.default_boot_config, BootConfig.rustDefault]

/-- C3 (amended): for `expectedTotal ≥ 1`, the report after the N-th
`Reached target` line equals `baseline + (N/expectedTotal)*(1-baseline)`
without clamping (so it exceeds 1.0 once N exceeds expectedTotal), the final
report is always exactly 1.0, and the full report sequence is non-decreasing
provided the number of observed lines does not exceed expectedTotal. -/
theorem wait_for_targets_progress_spec (boot_config : BootConfig)
    (entries : List (LogEntry × Bool)) (targets_total fresh : Int)
    (h1 : 1 ≤ targets_total) :
    (wait_for_targets boot_config entries targets_total fresh).2 =
      (List.range' 1 (seenTargets entries)).map
        (fun k => progress_value k targets_total) ++ [READY_PROGRESS_VALUE] ∧
    ((wait_for_targets boot_config entries targets_total fresh).2).getLast? =
      some READY_PROGRESS_VALUE ∧
    ((seenTargets entries : Int) ≤ targets_total →
      List.Chain' (· ≤ ·)
        (wait_for_targets boot_config entries targets_total fresh).2) := by
  have hrep : (wait_for_targets boot_config entries targets_total fresh).2 =
      (List.range' 1 (seenTargets entries)).map
        (fun k => progress_value k targets_total) ++ [READY_PROGRESS_VALUE] := by
    simp only [wait_for_targets]
    rw [wait_reports_eq_map]
  refine ⟨hrep, ?_, ?_⟩
  · rw [hrep]
    exact List.getLast?_concat _
  · intro hN
    rw [hrep]
    have := chain_progress targets_total h1 (seenTargets entries) 1
      (by push_cast; linarith)
    simpa [READY_PROGRESS_VALUE] using this

theorem wait_for_targets_progress_spec_witness :
    List.Chain' (· ≤ ·)
      (wait_for_targets BootConfig.default_boot_config
        [(LogEntry.reached, false)] 2 2).2 :=
  (wait_for_targets_progress_spec BootConfig.default_boot_config
      [(LogEntry.reached, false)] 2 2 (by decide)).2.2 (by decide)

theorem get_targets_total_stale_none_witness :
    (get_targets_total { rootfs_exists := true, rootfs_mtime := 1 }
        { flags := { first_boot_done := true }
          rootfs := { systemd_targets_total := some 42, timestamp := 0,
                      persistent_storage := true }
          system := { default_user := none, timezone := "UTC",
                      recovery_features := true,
                      initial_screen_rotation := ScreenRotation.Cw270,
                      splash_wallpaper := "flow" } }).2 = none :=
  get_targets_total_stale_none _ _ rfl (by decide)

/-- C4: stage 1 chroots and execs only after receiving the readiness message
and deletes the socket file before the chroot; stage 2 sends the message only
after rootfs assembly fully succeeded; and a received `ready = true` alone
makes stage 1 proceed — the protocol has no further guard. -/
theorem stage_handoff_ordering :
    (∀ r : Bool, Stage1Event.chroot ∈ stage1_trace r →
      stage1_trace r =
        [Stage1Event.recvStatus true, Stage1Event.removeSocket,
         Stage1Event.chroot, Stage1Event.execInit]) ∧
    (∀ ok : Bool, Stage2Event.sendReady ∈ stage2_trace ok →
      ok = true ∧
        stage2_trace ok = [Stage2Event.rootfsSetup true, Stage2Event.sendReady]) ∧
    (∀ r : Bool, r = true →
      Stage1Event.chroot ∈ stage1_trace r ∧
        Stage1Event.execInit ∈ stage1_trace r) := by
  decide

theorem stage_handoff_ordering_witness :
    stage1_trace true =
      [Stage1Event.recvStatus true, Stage1Event.removeSocket,
       Stage1Event.chroot, Stage1Event.execInit] ∧
    (true = true ∧
      stage2_trace true = [Stage2Event.rootfsSetup true, Stage2Event.sendReady]) ∧
    (Stage1Event.chroot ∈ stage1_trace true ∧
      Stage1Event.execInit ∈ stage1_trace true) :=
  ⟨stage_handoff_ordering.1 true (by decide),
   stage_handoff_ordering.2.1 true (by decide),
   stage_handoff_ordering.2.2 true rfl⟩

/-- Shape of the gate-polling loop of the `TriggerSplash` branch: whenever
the reply event occurs, the poll consists of false observations followed by
one true observation immediately followed by the reply. -/
theorem splash_gate_poll_shape (observations : List Bool)
    (h : SplashEvent.sendSplashReadyReply ∈ splash_gate_poll observations) :
    ∃ m, splash_gate_poll observations =
      List.replicate m (SplashEvent.observeGate false) ++
        [SplashEvent.observeGate true, SplashEvent.sendSplashReadyReply] := by
  induction observations with
  | nil => simp [splash_gate_poll] at h
  | cons b rest ih =>
    cases b with
    | true => exact ⟨0, by simp [splash_gate_poll]⟩
    | false =>
      simp [splash_gate_poll] at h
      obtain ⟨m, hm⟩ := ih h
      exact ⟨m + 1, by simp [splash_gate_poll, hm, List.replicate_succ]⟩

/-- C7: whenever the `TriggerSplash` handler emits the `SplashReady` reply,
the trace is: forward the splash kind, receive the splash-ready
acknowledgement, observe the gate unset some number of times, observe it set,
and only then — as the final event — write the reply; the reply is never
written while the gate is unset. -/
theorem trigger_splash_reply_after_gate (t : PrimitiveShutDownType)
    (observations : List Bool)
    (h : SplashEvent.sendSplashReadyReply ∈ trigger_splash_trace t observations) :
    ∃ m, trigger_splash_trace t observations =
      SplashEvent.sendSplash t :: SplashEvent.recvSplashReadyFromGui ::
        (List.replicate m (SplashEvent.observeGate false) ++
          [SplashEvent.observeGate true, SplashEvent.sendSplashReadyReply]) := by
  have h' : SplashEvent.sendSplashReadyReply ∈ splash_gate_poll observations := by
    simpa [trigger_splash_trace] using h
  obtain ⟨m, hm⟩ := splash_gate_poll_shape observations h'
  exact ⟨m, by simp [trigger_splash_trace, hm]⟩

theorem trigger_splash_reply_after_gate_witness :
    ∃ m, trigger_splash_trace PrimitiveShutDownType.PowerOff [false, true] =
      SplashEvent.sendSplash PrimitiveShutDownType.PowerOff ::
        SplashEvent.recvSplashReadyFromGui ::
        (List.replicate m (SplashEvent.observeGate false) ++
          [SplashEvent.observeGate true, SplashEvent.sendSplashReadyReply]) :=
  trigger_splash_reply_after_gate PrimitiveShutDownType.PowerOff [false, true]
    (by decide)

/-- Shape of the `shut_down` polling loop: a successful run observes the flag
false some number of times, then observes it true and immediately clears
it. -/
theorem shut_down_loop_shape (observations : List Bool) :
    ∀ evs, shut_down_loop observations = some evs →
      ∃ m, evs = List.replicate m (PowerEvent.observeFlag false) ++
        [PowerEvent.observeFlag true, PowerEvent.clearFlag] := by
  induction observations with
  | nil => intro evs h; simp [shut_down_loop] at h
  | cons b rest ih =>
    intro evs h
    cases b with
    | true =>
      simp [shut_down_loop] at h
      exact ⟨0, by simp [← h]⟩
    | false =>
      cases hrest : shut_down_loop rest with
      | none => simp [shut_down_loop, hrest] at h
      | some evs' =>
        simp [shut_down_loop, hrest] at h
        obtain ⟨m, rfl⟩ := ih evs' hrest
        exact ⟨m + 1, by simp [← h, List.replicate_succ]⟩

/-- The gate left unset forever blocks `shut_down_loop`. -/
theorem shut_down_loop_all_false (n : Nat) :
    shut_down_loop (List.replicate n false) = none := by
  induction n with
  | zero => rfl
  | succ m ih => simp [List.replicate_succ, shut_down_loop, ih]

/-- C8: in a direct-mode (`Normal`) power-off or reboot, the trace is: only
non-destructive flag observations until the gate is observed true and
cleared, then disk syncs and the forced unmounts of the main and boot
partitions, and the platform power primitive strictly last. -/
theorem shut_down_direct_ordering (t : PrimitiveShutDownType)
    (observations : List Bool) (tr : List PowerEvent) (fl : Bool)
    (ht : t = PrimitiveShutDownType.PowerOff ∨ t = PrimitiveShutDownType.Reboot)
    (h : shut_down t PowerDownMode.Normal observations = some (tr, fl)) :
    ∃ m, tr = List.replicate m (PowerEvent.observeFlag false) ++
        [PowerEvent.observeFlag true, PowerEvent.clearFlag,
         PowerEvent.syncDisks, PowerEvent.syncDisks, PowerEvent.unmountMain,
         PowerEvent.syncDisks, PowerEvent.unmountBoot,
         PowerEvent.powerPrimitive t] ∧
      (∀ e ∈ List.replicate m (PowerEvent.observeFlag false) ++
          [PowerEvent.observeFlag true, PowerEvent.clearFlag],
        isDestructive e = false) ∧
      tr.getLast? = some (PowerEvent.powerPrimitive t) := by
  rw [shut_down, Option.map_eq_some'] at h
  obtain ⟨evs, hevs, hpair⟩ := h
  obtain ⟨m, rfl⟩ := shut_down_loop_shape observations evs hevs
  have htr : tr = List.replicate m (PowerEvent.observeFlag false) ++
      [PowerEvent.observeFlag true, PowerEvent.clearFlag,
       PowerEvent.syncDisks, PowerEvent.syncDisks, PowerEvent.unmountMain,
       PowerEvent.syncDisks, PowerEvent.unmountBoot,
       PowerEvent.powerPrimitive t] := by
    have h1 := congrArg Prod.fst hpair
    simp only at h1
    rw [← h1]
    rcases ht with rfl | rfl <;>
      simp [real_shut_down_trace, unmount_base_partitions_trace,
        bulletproof_unmount_trace]
  refine ⟨m, htr, ?_, ?_⟩
  · intro e he
    rcases List.mem_append.mp he with he | he
    · rw [List.eq_of_mem_replicate he]; rfl
    · simp only [List.mem_cons, List.not_mem_nil, or_false] at he
      rcases he with rfl | rfl <;> rfl
  · rw [htr]
    have : List.replicate m (PowerEvent.observeFlag false) ++
        [PowerEvent.observeFlag true, PowerEvent.clearFlag,
         PowerEvent.syncDisks, PowerEvent.syncDisks, PowerEvent.unmountMain,
         PowerEvent.syncDisks, PowerEvent.unmountBoot,
         PowerEvent.powerPrimitive t] =
        (List.replicate m (PowerEvent.observeFlag false) ++
          [PowerEvent.observeFlag true, PowerEvent.clearFlag,
           PowerEvent.syncDisks, PowerEvent.syncDisks, PowerEvent.unmountMain,
           PowerEvent.syncDisks, PowerEvent.unmountBoot]) ++
          [PowerEvent.powerPrimitive t] := by
      simp
    rw [this, List.getLast?_concat]

theorem shut_down_direct_ordering_witness :
    ∃ m, ([PowerEvent.observeFlag true, PowerEvent.clearFlag,
        PowerEvent.syncDisks, PowerEvent.syncDisks, PowerEvent.unmountMain,
        PowerEvent.syncDisks, PowerEvent.unmountBoot,
        PowerEvent.powerPrimitive PrimitiveShutDownType.PowerOff] :
          List PowerEvent) =
      List.replicate m (PowerEvent.observeFlag false) ++
        [PowerEvent.observeFlag true, PowerEvent.clearFlag,
         PowerEvent.syncDisks, PowerEvent.syncDisks, PowerEvent.unmountMain,
         PowerEvent.syncDisks, PowerEvent.unmountBoot,
         PowerEvent.powerPrimitive PrimitiveShutDownType.PowerOff] ∧
      (∀ e ∈ List.replicate m (PowerEvent.observeFlag false) ++
          [PowerEvent.observeFlag true, PowerEvent.clearFlag],
        isDestructive e = false) ∧
      ([PowerEvent.observeFlag true, PowerEvent.clearFlag,
        PowerEvent.syncDisks, PowerEvent.syncDisks, PowerEvent.unmountMain,
        PowerEvent.syncDisks, PowerEvent.unmountBoot,
        PowerEvent.powerPrimitive PrimitiveShutDownType.PowerOff] :
          List PowerEvent).getLast? =
        some (PowerEvent.powerPrimitive PrimitiveShutDownType.PowerOff) :=
  shut_down_direct_ordering PrimitiveShutDownType.PowerOff [true] _ false
    (Or.inl rfl) rfl

/-- C10: whenever `shut_down` returns, it observed the gate true, stored
false into it before any of the `real_shut_down` events, the flag reads false
afterwards, and a request arriving while the flag stays unset blocks. -/
theorem shut_down_consumes_gate (t : PrimitiveShutDownType)
    (mode : PowerDownMode) (observations : List Bool)
    (tr : List PowerEvent) (fl : Bool)
    (h : shut_down t mode observations = some (tr, fl)) :
    fl = false ∧
    (∃ m, tr = List.replicate m (PowerEvent.observeFlag false) ++
        [PowerEvent.observeFlag true, PowerEvent.clearFlag] ++
        real_shut_down_trace t mode) ∧
    (∀ n, shut_down t mode (List.replicate n false) = none) := by
  rw [shut_down, Option.map_eq_some'] at h
  obtain ⟨evs, hevs, hpair⟩ := h
  obtain ⟨m, rfl⟩ := shut_down_loop_shape observations evs hevs
  have h1 := congrArg Prod.fst hpair
  have h2 := congrArg Prod.snd hpair
  simp only at h1 h2
  refine ⟨h2.symm, ⟨m, by rw [← h1, List.append_assoc]⟩, ?_⟩
  intro n
  rw [shut_down, shut_down_loop_all_false n]
  rfl

theorem shut_down_consumes_gate_witness :
    false = false ∧
    (∃ m, ([PowerEvent.observeFlag false, PowerEvent.observeFlag true,
        PowerEvent.clearFlag,
        PowerEvent.chrootPrimitive PrimitiveShutDownType.Reboot] :
          List PowerEvent) =
      List.replicate m (PowerEvent.observeFlag false) ++
        [PowerEvent.observeFlag true, PowerEvent.clearFlag] ++
        real_shut_down_trace PrimitiveShutDownType.Reboot PowerDownMode.RootFS) ∧
    (∀ n, shut_down PrimitiveShutDownType.Reboot PowerDownMode.RootFS
        (List.replicate n false) = none) :=
  shut_down_consumes_gate PrimitiveShutDownType.Reboot PowerDownMode.RootFS
    [false, true] _ false rfl

/-- Every single submission leaves a wellformed cache. -/
theorem cache_ok_submit (cache : Option LoginForm) (f : LoginForm) :
    cache_ok (submit_login_form cache f) = true := by
  cases hu : f.username.isEmpty <;> cases hp : f.password.isEmpty <;>
    simp [submit_login_form, cache_ok, hu, hp]

/-- Folding submissions over any wellformed cache stays wellformed. -/
theorem cache_ok_foldl (subs : List LoginForm) :
    ∀ cache, cache_ok cache = true →
      cache_ok (subs.foldl submit_login_form cache) = true := by
  induction subs with
  | nil => intro c h; simpa using h
  | cons f rest ih => intro c _; exact ih (submit_login_form c f) (cache_ok_submit c f)

/-- C9: the cached login form is always absent or holds two non-empty
fields; a submission with an empty username or password clears the cache,
any other submission replaces it with exactly the submitted form; after any
sequence of submissions from the initial empty cache the invariant holds;
and `GetLoginCredentials` replies with the currently cached value. -/
theorem login_cache_invariant (cache : Option LoginForm) (f : LoginForm)
    (subs : List LoginForm) :
    cache_ok (submit_login_form cache f) = true ∧
    ((f.username.isEmpty || f.password.isEmpty) = true →
      submit_login_form cache f = none) ∧
    ((f.username.isEmpty || f.password.isEmpty) = false →
      submit_login_form cache f = some f) ∧
    cache_ok (cache_after_submissions subs) = true ∧
    get_login_credentials_reply cache = AnswerFromQinit.Login cache := by
  refine ⟨cache_ok_submit cache f, ?_, ?_,
    cache_ok_foldl subs none rfl, rfl⟩
  · intro h
    simp [submit_login_form, h]
  · intro h
    simp [submit_login_form, h]

theorem login_cache_invariant_witness :
    submit_login_form (some { username := "u", password := "p" })
        { username := "a", password := "" } = none ∧
    submit_login_form none { username := "u", password := "p" } =
      some { username := "u", password := "p" } :=
  ⟨(login_cache_invariant (some { username := "u", password := "p" })
      { username := "a", password := "" } []).2.1 rfl,
   (login_cache_invariant none { username := "u", password := "p" } []).2.2.1 rfl⟩

end QuillInit
